import Mathlib

/-!
Verification of the SonicScribe generation endpoint
(`src/app/api/generate/route.ts`): the request schema (`requestSchema`,
a zod object), the `POST` handler's control flow, and its error
classification. External collaborators that live outside `src/`
(`lib/content`, `lib/openai`, `lib/prompt`, the OpenAI calls) are
modelled as oracles giving each awaited call's outcome.
-/

namespace SonicScribe

/-- JSON values as the schema sees them: string fields carry their
content, every other JSON type is collapsed to its zod type name, which
is all the validator ever uses of it. -/
inductive JVal where
  | jstr (s : String)
  | jnum
  | jbool
  | jnull
  | jarr
  | jobjOther
deriving DecidableEq, Repr

/-- The zod `parsedType` name of a JSON value, as it appears in
`invalid_type` issue messages. -/
def JVal.typeName : JVal → String
  | .jstr _ => "string"
  | .jnum => "number"
  | .jbool => "boolean"
  | .jnull => "null"
  | .jarr => "array"
  | .jobjOther => "object"

/-- An inbound JSON object restricted to the keys `requestSchema` reads
(zod strips unknown keys). `none` is an absent key. -/
structure Payload where
  mode : Option JVal
  voice : Option JVal
  content : Option JVal
  url : Option JVal
  videoUrl : Option JVal
deriving DecidableEq, Repr

/-- A parsed JSON request body: either not an object at all (carrying
its zod type name) or an object projected onto the schema's keys. -/
inductive Body where
  | nonObject (typeName : String)
  | object (p : Payload)
deriving DecidableEq, Repr

/-- The closed `mode` enum of `requestSchema`. -/
inductive Mode where
  | text
  | url
  | video
deriving DecidableEq, Repr

/-- Character class of the schema's voice regex `/^[a-z-]+$/i`: with the
`i` flag, `[a-z]` matches ASCII letters of either case; `-` is literal. -/
def voiceChar (c : Char) : Bool :=
  ('a' ≤ c && c ≤ 'z') || ('A' ≤ c && c ≤ 'Z') || c == '-'

/-- The test `/^[a-z-]+$/i.test s` used by the schema's `.regex` check:
nonempty, and every character in the (case-insensitive) class. -/
def voiceRegex (s : String) : Bool :=
  !s.isEmpty && s.data.all voiceChar

/-- The spec's stated voice pattern `^[a-z-]+$` read literally —
lowercase letters and hyphens only. Written from the spec's words, to be
compared with `voiceRegex`, the code's case-insensitive test. -/
def voicePatternSpec (s : String) : Bool :=
  !s.isEmpty && s.data.all (fun c => ('a' ≤ c && c ≤ 'z') || c == '-')

/-- Characters allowed after the first in a URL scheme. -/
def schemeChar (c : Char) : Bool :=
  c.isAlpha || c.isDigit || c == '+' || c == '-' || c == '.'

/-- Splits a character list at its first colon, when one exists. -/
def splitAtColon : List Char → Option (List Char × List Char)
  | [] => none
  | c :: rest =>
    if c == ':' then some ([], rest)
    else
      match splitAtColon rest with
      | none => none
      | some (a, b) => some (c :: a, b)

/-- Model of zod's `.url()` check (`new URL(s)` succeeding): the string
splits as `scheme ":" rest` with a letter-led scheme. An approximation
of WHATWG URL parsing (zod is a library, not part of this repository);
no claim below depends on this predicate's exact extension. -/
def isValidUrl (s : String) : Bool :=
  match splitAtColon s.data with
  | none => false
  | some (scheme, _) =>
    match scheme with
    | [] => false
    | c :: cs => c.isAlpha && cs.all schemeChar

/-- JS string whitespace, for `trim` (restricted to the ASCII whitespace
characters; the inputs under study contain no exotic Unicode spaces). -/
def jsWhitespace (c : Char) : Bool :=
  c == ' ' || c == '\t' || c == '\n' || c == '\r' || c == '\x0b' || c == '\x0c'

/-- JS `s.trim()`: drop leading and trailing whitespace. -/
def jsTrim (s : String) : String :=
  ⟨((s.data.dropWhile jsWhitespace).reverse.dropWhile jsWhitespace).reverse⟩

def msgRequired : String := "Required"

def msgEnumBadType (t : String) : String :=
  "Expected 'text' | 'url' | 'video', received " ++ t

def msgEnumBadValue (s : String) : String :=
  "Invalid enum value. Expected 'text' | 'url' | 'video', received '" ++ s ++ "'"

def msgExpectedString (t : String) : String :=
  "Expected string, received " ++ t

def msgVoiceMin : String := "String must contain at least 2 character(s)"

def msgVoiceMax : String := "String must contain at most 32 character(s)"

def msgVoiceRegex : String := "Voice id must be alphanumeric or hyphenated"

def msgContentMin : String := "Provide at least 50 characters of text."

def msgInvalidUrl : String := "Invalid url"

/-- zod parse of the `mode` key: `z.enum(["text", "url", "video"])`. A
missing key is `invalid_type` / `Required`; a non-string is
`invalid_type` against the joined options; a string outside the options
is `invalid_enum_value`. -/
def parseMode : Option JVal → Except (List String) Mode
  | none => .error [msgRequired]
  | some (.jstr s) =>
    if s = "text" then .ok .text
    else if s = "url" then .ok .url
    else if s = "video" then .ok .video
    else .error [msgEnumBadValue s]
  | some v => .error [msgEnumBadType v.typeName]

/-- zod parse of the `voice` key:
`z.string().min(2).max(32).regex(/^[a-z-]+$/i, ...).default("alloy")`.
An absent key takes the default; a string runs every check, collecting
an issue per failing check in chain order. -/
def parseVoice : Option JVal → Except (List String) String
  | none => .ok "alloy"
  | some (.jstr s) =>
    let issues :=
      (if s.length < 2 then [msgVoiceMin] else []) ++
      (if 32 < s.length then [msgVoiceMax] else []) ++
      (if voiceRegex s then [] else [msgVoiceRegex])
    if issues.isEmpty then .ok s else .error issues
  | some v => .error [msgExpectedString v.typeName]

/-- zod parse of the `content` key: optional
`z.string().min(50, "Provide at least 50 characters of text.")`. -/
def parseContent : Option JVal → Except (List String) (Option String)
  | none => .ok none
  | some (.jstr s) =>
    if s.length < 50 then .error [msgContentMin] else .ok (some s)
  | some v => .error [msgExpectedString v.typeName]

/-- zod parse of the `url` / `videoUrl` keys: optional `z.string().url()`. -/
def parseUrlField : Option JVal → Except (List String) (Option String)
  | none => .ok none
  | some (.jstr s) =>
    if isValidUrl s then .ok (some s) else .error [msgInvalidUrl]
  | some v => .error [msgExpectedString v.typeName]

/-- The validated request (`parsed.data` in the route). -/
structure ParsedData where
  mode : Mode
  voice : String
  content : Option String
  url : Option String
  videoUrl : Option String
deriving DecidableEq, Repr

/-- The issue messages a key's parse contributed. -/
def issuesOf {α : Type} : Except (List String) α → List String
  | .ok _ => []
  | .error l => l

/-- All issue messages of a payload against `requestSchema`, in zod's
order: keys in shape-declaration order, then check order within a key. -/
def schemaIssues (p : Payload) : List String :=
  issuesOf (parseMode p.mode) ++ issuesOf (parseVoice p.voice) ++
  issuesOf (parseContent p.content) ++ issuesOf (parseUrlField p.url) ++
  issuesOf (parseUrlField p.videoUrl)

/-- `requestSchema.safeParse`: success exactly when every key parses;
failure carries the full issue list in zod's order. -/
def safeParse : Body → Except (List String) ParsedData
  | .nonObject t => .error ["Expected object, received " ++ t]
  | .object p =>
    match parseMode p.mode, parseVoice p.voice, parseContent p.content,
        parseUrlField p.url, parseUrlField p.videoUrl with
    | .ok m, .ok v, .ok c, .ok u, .ok w => .ok ⟨m, v, c, u, w⟩
    | _, _, _, _, _ => .error (schemaIssues p)

/-- A value thrown in JS: an `Error` with its message, or any other
thrown value (for which the route substitutes a generic message). -/
inductive Thrown where
  | err (msg : String)
  | nonError
deriving DecidableEq, Repr

/-- `error instanceof Error ? error.message : "Unexpected server error."` -/
def Thrown.message : Thrown → String
  | .err m => m
  | .nonError => "Unexpected server error."

/-- `startsWithChars needle hay`: `needle` is an initial run of `hay`. -/
def startsWithChars : List Char → List Char → Bool
  | [], _ => true
  | _ :: _, [] => false
  | a :: as, b :: bs => a == b && startsWithChars as bs

/-- `needle` occurs as a contiguous run of `hay`. -/
def hasSub (needle : List Char) : List Char → Bool
  | [] => needle.isEmpty
  | c :: rest => startsWithChars needle (c :: rest) || hasSub needle rest

/-- JS `hay.includes(sub)`. -/
def strContains (hay sub : String) : Bool :=
  hasSub sub.data hay.data

/-- The catch-block status classifier:
`message.includes("OPENAI_API_KEY") || message.includes("Failed to fetch") ? 500 : 400`. -/
def catchStatus (m : String) : Nat :=
  if strContains m "OPENAI_API_KEY" || strContains m "Failed to fetch" then 500
  else 400

/-- A response body: the success shape `{ script, audioBase64 }` or the
error shape `{ error }`. -/
inductive RBody where
  | success (script : String) (audioBase64 : String)
  | failure (error : String)
deriving DecidableEq, Repr

/-- An HTTP response of the route: status code plus JSON body. -/
structure Response where
  status : Nat
  body : RBody
deriving DecidableEq, Repr

/-- The response built by the route's catch block (lines 131-142). -/
def catchResponse (t : Thrown) : Response :=
  ⟨catchStatus t.message, .failure t.message⟩

/-- Which of the awaited external calls the handler consumed. -/
structure Trace where
  extractUrlCalled : Bool
  extractVideoCalled : Bool
  generateCalled : Bool
  synthesizeCalled : Bool
deriving DecidableEq, Repr

/-- No external call made yet. -/
def Trace.start : Trace := ⟨false, false, false, false⟩

/-- Modelled from the spec: the collaborators the route awaits —
`extractFromUrl` / `extractFromYouTube` (from `lib/content`),
`getOpenAIClient` (from `lib/openai`), and the OpenAI script-generation
and speech-synthesis calls — are not under `src/`. Each is an oracle
giving that call's outcome. The `.error` outcome is a thrown value: the
spec has the extractors fail with `FetchError` / `EmptyContentError` /
`InvalidVideoUrlError` / `TranscriptUnavailableError`, and the client
construction throw on missing credentials. The `.ok` outcome is the
returned value: for the extractors the extracted text — possibly null
or empty, the case the route's own falsy-source check (lines 74-79)
handles; for generation the optional `output_text`; for synthesis the
audio, carried here in its base64 transport form. -/
structure Oracles where
  extractFromUrl : String → Except Thrown (Option String)
  extractFromYouTube : String → Except Thrown (Option String)
  getOpenAIClient : Except Thrown Unit
  createScript : String → Mode → Option String → Except Thrown (Option String)
  createSpeech : String → String → Except Thrown String

def genFailMsg : String :=
  "Failed to generate a script. Try again with different source material."

def sourceFailMsg : String :=
  "Unable to derive source material for the podcast."

/-- Route lines 81-130: obtain the client, generate the script
(`output_text?.trim()`, empty or missing means 502), then synthesize
speech; a throw at any await falls to the catch block. -/
def afterSource (o : Oracles) (mode : Mode) (origin : Option String)
    (voice sourceText : String) (tr : Trace) : Response × Trace :=
  match o.getOpenAIClient with
  | .error t => (catchResponse t, tr)
  | .ok _ =>
    match o.createScript sourceText mode origin with
    | .error t => (catchResponse t, { tr with generateCalled := true })
    | .ok out =>
      let tr1 : Trace := { tr with generateCalled := true }
      match out with
      | none => (⟨502, .failure genFailMsg⟩, tr1)
      | some raw =>
        let script := jsTrim raw
        if script.length = 0 then (⟨502, .failure genFailMsg⟩, tr1)
        else
          match o.createSpeech voice script with
          | .error t => (catchResponse t, { tr1 with synthesizeCalled := true })
          | .ok audio =>
            (⟨200, .success script audio⟩, { tr1 with synthesizeCalled := true })

/-- Route lines 74-79, then onward: `if (!sourceText)` — a null or
empty source text is a 422; otherwise the pipeline continues. -/
def checkSource (o : Oracles) (mode : Mode) (origin : Option String)
    (voice : String) (sourceText : Option String) (tr : Trace) : Response × Trace :=
  match sourceText with
  | none => (⟨422, .failure sourceFailMsg⟩, tr)
  | some s =>
    if s.length = 0 then (⟨422, .failure sourceFailMsg⟩, tr)
    else afterSource o mode origin voice s tr

/-- The `POST` handler of `src/app/api/generate/route.ts`. The body
argument is the outcome of `request.json()` (which may itself throw);
the result pairs the response with the trace of external calls made. -/
def POST (body : Except Thrown Body) (o : Oracles) : Response × Trace :=
  match body with
  | .error t => (catchResponse t, Trace.start)
  | .ok b =>
    match safeParse b with
    | .error issues =>
      (⟨400, .failure (issues.headD "Invalid request payload.")⟩, Trace.start)
    | .ok d =>
      match d.mode with
      | .text =>
        let sourceText := jsTrim (d.content.getD "")
        if sourceText.length < 50 then
          (⟨400, .failure "Please provide at least 50 characters of text."⟩,
            Trace.start)
        else checkSource o .text none d.voice (some sourceText) Trace.start
      | .url =>
        match d.url with
        | none => (⟨400, .failure "Missing URL for webpage mode."⟩, Trace.start)
        | some u =>
          let tr : Trace := { Trace.start with extractUrlCalled := true }
          match o.extractFromUrl u with
          | .error t => (catchResponse t, tr)
          | .ok st => checkSource o .url (some u) d.voice st tr
      | .video =>
        match d.videoUrl with
        | none =>
          (⟨400, .failure "Missing video URL for YouTube mode."⟩, Trace.start)
        | some u =>
          let tr : Trace := { Trace.start with extractVideoCalled := true }
          match o.extractFromYouTube u with
          | .error t => (catchResponse t, tr)
          | .ok st => checkSource o .video (some u) d.voice st tr

/-- A source text long enough for the 50-character minimum, used as a
concrete fixture. -/
def sampleContent : String :=
  "This is a sufficiently long piece of source material for the podcast pipeline."

/-- Oracles in which every external call succeeds. -/
def successOracles : Oracles where
  extractFromUrl := fun _ => .ok (some sampleContent)
  extractFromYouTube := fun _ => .ok (some sampleContent)
  getOpenAIClient := .ok ()
  createScript := fun _ _ _ => .ok (some "A finished podcast script.")
  createSpeech := fun _ _ => .ok "QUJDRA=="

/-- A well-formed text-mode payload. -/
def textPayload : Payload :=
  ⟨some (.jstr "text"), none, some (.jstr sampleContent), none, none⟩

/-- A well-formed url-mode payload. -/
def urlPayload : Payload :=
  ⟨some (.jstr "url"), none, none, some (.jstr "https://example.com/a"), none⟩

/-- Oracles whose URL extraction returns null (the page yielded nothing
usable), everything else succeeding. -/
def nullExtractOracles : Oracles :=
  { successOracles with extractFromUrl := fun _ => .ok none }

/-- A well-formed video-mode payload. -/
def videoPayload : Payload :=
  ⟨some (.jstr "video"), none, none, none,
    some (.jstr "https://youtube.com/watch?v=abc")⟩

/-- Oracles whose transcript extraction throws — the spec's
`TranscriptUnavailableError` for a video without public captions. -/
def transcriptThrowOracles : Oracles :=
  { successOracles with
      extractFromYouTube :=
        fun _ => .error (.err "No transcript is available for this video") }

/-- Oracles whose speech synthesis call throws. -/
def synthesisThrowOracles : Oracles :=
  { successOracles with
      createSpeech := fun _ _ => .error (.err "synthesis backend unavailable") }

/-- Oracles whose script generation returns whitespace-only output. -/
def emptyScriptOracles : Oracles :=
  { successOracles with createScript := fun _ _ _ => .ok (some "   ") }

/-- Oracles whose client construction throws the missing-credential
error from `lib/openai`. -/
def missingKeyOracles : Oracles :=
  { successOracles with
      getOpenAIClient := .error (.err "Missing OPENAI_API_KEY environment variable") }

/-- Oracles whose client construction throws an unexpected internal
fault whose message carries filesystem detail. -/
def internalFaultOracles : Oracles :=
  { successOracles with
      getOpenAIClient :=
        .error (.err "ENOENT: no such file or directory, open /app/secrets.json") }

/-- A url-mode payload with the `url` key absent. -/
def missingUrlPayload : Payload := ⟨some (.jstr "url"), none, none, none, none⟩

/-- A video-mode payload with the `videoUrl` key absent. -/
def missingVideoPayload : Payload := ⟨some (.jstr "video"), none, none, none, none⟩

/-- A text-mode payload whose content is far below 50 characters. -/
def shortTextPayload : Payload :=
  ⟨some (.jstr "text"), none, some (.jstr "way too short"), none, none⟩

/-- A text-mode payload with short content and an additionally invalid
(one-character) voice. -/
def badVoiceShortTextPayload : Payload :=
  ⟨some (.jstr "text"), some (.jstr "a"), some (.jstr "hi"), none, none⟩

/-- A url-mode payload missing its url and carrying an invalid voice. -/
def badVoiceMissingUrlPayload : Payload :=
  ⟨some (.jstr "url"), some (.jstr "!"), none, none, none⟩

/-- A valid payload whose voice is uppercase. -/
def upperVoicePayload : Payload :=
  ⟨some (.jstr "text"), some (.jstr "ALLOY"), some (.jstr sampleContent), none, none⟩

/-- A text-mode payload whose voice key holds a JSON number. -/
def numericVoicePayload : Payload :=
  ⟨some (.jstr "text"), some .jnum, none, none, none⟩

/-- A payload with every key absent. -/
def emptyPayload : Payload := ⟨none, none, none, none, none⟩

/-- A text-mode payload with valid voice and no content key. -/
def contentAbsentPayload : Payload :=
  ⟨some (.jstr "text"), some (.jstr "verse"), none, none, none⟩

/-- The response is settled: a 200 success body, or an error body with
one of the documented error statuses. -/
def Resolved (r : Response) : Prop :=
  (r.status = 200 ∧ ∃ s a, r.body = .success s a) ∨
  ((r.status = 400 ∨ r.status = 422 ∨ r.status = 502 ∨ r.status = 500) ∧
    ∃ m, r.body = .failure m)

/-- An extraction call that completed (did not throw) but returned no
usable text: null or the empty string — exactly the condition the
route's `if (!sourceText)` check (lines 74-79) maps to 422. The spec's
thrown `ExtractionError`s are the `.error` outcome instead, handled by
the route's top-level catch. -/
def ExtractReturnedNoText (e : Except Thrown (Option String)) : Prop :=
  e = .ok none ∨ e = .ok (some "")

/-- The fields other than `content` each pass their schema checks. -/
def OtherFieldsOK (p : Payload) : Prop :=
  (∃ v, parseVoice p.voice = .ok v) ∧
  (∃ u, parseUrlField p.url = .ok u) ∧
  (∃ w, parseUrlField p.videoUrl = .ok w)

/-- Voice, content, url and videoUrl each pass their schema checks. -/
def RestFieldsOK (p : Payload) : Prop :=
  (∃ v, parseVoice p.voice = .ok v) ∧
  (∃ c, parseContent p.content = .ok c) ∧
  (∃ u, parseUrlField p.url = .ok u) ∧
  (∃ w, parseUrlField p.videoUrl = .ok w)

/-- A text-mode `content` field whose trimmed length is below the
minimum: absent, or a string trimming to fewer than 50 characters. -/
def ShortTextContent (p : Payload) : Prop :=
  p.content = none ∨ ∃ s, p.content = some (.jstr s) ∧ (jsTrim s).length < 50

theorem catchStatus_cases (m : String) : catchStatus m = 500 ∨ catchStatus m = 400 := by
  unfold catchStatus
  split <;> simp

theorem catchStatus_ne_502 (m : String) : catchStatus m ≠ 502 := by
  unfold catchStatus
  split <;> simp

theorem catchStatus_ne_422 (m : String) : catchStatus m ≠ 422 := by
  unfold catchStatus
  split <;> simp

theorem resolved_catch (t : Thrown) : Resolved (catchResponse t) := by
  unfold Resolved catchResponse
  rcases catchStatus_cases t.message with h | h <;> simp [h]

theorem resolved_afterSource (o : Oracles) (mo : Mode) (origin : Option String)
    (voice s : String) (tr : Trace) :
    Resolved (afterSource o mo origin voice s tr).1 := by
  unfold afterSource
  repeat'
    first
      | split
      | dsimp only
  all_goals
    first
      | exact resolved_catch _
      | exact Or.inl ⟨rfl, _, _, rfl⟩
      | exact Or.inr ⟨by simp, _, rfl⟩

theorem resolved_checkSource (o : Oracles) (mo : Mode) (origin : Option String)
    (voice : String) (st : Option String) (tr : Trace) :
    Resolved (checkSource o mo origin voice st tr).1 := by
  unfold checkSource
  repeat'
    first
      | split
      | dsimp only
  all_goals
    first
      | exact resolved_afterSource o mo origin voice _ tr
      | exact Or.inr ⟨by simp, _, rfl⟩

/-- A schema failure makes `POST` answer 400 with the first issue. -/
theorem post_schema_error {b : Body} {l : List String} (o : Oracles)
    (h : safeParse b = .error l) :
    POST (.ok b) o = (⟨400, .failure (l.headD "Invalid request payload.")⟩, Trace.start) := by
  unfold POST
  dsimp only
  rw [h]

theorem safeParse_ok_of {p : Payload} {m : Mode} {v : String}
    {c u w : Option String}
    (hm : parseMode p.mode = .ok m) (hv : parseVoice p.voice = .ok v)
    (hc : parseContent p.content = .ok c) (hu : parseUrlField p.url = .ok u)
    (hw : parseUrlField p.videoUrl = .ok w) :
    safeParse (.object p) = .ok ⟨m, v, c, u, w⟩ := by
  unfold safeParse
  dsimp only
  rw [hm, hv, hc, hu, hw]

theorem safeParse_err_of_mode {p : Payload} {e : List String}
    (hm : parseMode p.mode = .error e) :
    safeParse (.object p) = .error (schemaIssues p) := by
  unfold safeParse
  dsimp only
  rw [hm]

theorem safeParse_err_of_voice {p : Payload} {e : List String}
    (hv : parseVoice p.voice = .error e) :
    safeParse (.object p) = .error (schemaIssues p) := by
  unfold safeParse
  dsimp only
  rw [hv]
  all_goals cases parseMode p.mode <;> cases parseContent p.content <;>
    cases parseUrlField p.url <;> cases parseUrlField p.videoUrl <;> rfl

theorem safeParse_err_of_content {p : Payload} {e : List String}
    (hc : parseContent p.content = .error e) :
    safeParse (.object p) = .error (schemaIssues p) := by
  unfold safeParse
  dsimp only
  rw [hc]
  all_goals cases parseMode p.mode <;> cases parseVoice p.voice <;>
    cases parseUrlField p.url <;> cases parseUrlField p.videoUrl <;> rfl

theorem safeParse_err_of_url {p : Payload} {e : List String}
    (hu : parseUrlField p.url = .error e) :
    safeParse (.object p) = .error (schemaIssues p) := by
  unfold safeParse
  dsimp only
  rw [hu]
  all_goals cases parseMode p.mode <;> cases parseVoice p.voice <;>
    cases parseContent p.content <;> cases parseUrlField p.videoUrl <;> rfl

theorem safeParse_err_of_video {p : Payload} {e : List String}
    (hw : parseUrlField p.videoUrl = .error e) :
    safeParse (.object p) = .error (schemaIssues p) := by
  unfold safeParse
  dsimp only
  rw [hw]
  all_goals cases parseMode p.mode <;> cases parseVoice p.voice <;>
    cases parseContent p.content <;> cases parseUrlField p.url <;> rfl

theorem not_other_of_voice_err {p : Payload} {e : List String}
    (hv : parseVoice p.voice = .error e) : ¬ OtherFieldsOK p := by
  rintro ⟨⟨v, hv2⟩, -, -⟩
  rw [hv2] at hv
  cases hv

theorem not_other_of_url_err {p : Payload} {e : List String}
    (hu : parseUrlField p.url = .error e) : ¬ OtherFieldsOK p := by
  rintro ⟨-, ⟨u, hu2⟩, -⟩
  rw [hu2] at hu
  cases hu

theorem not_other_of_video_err {p : Payload} {e : List String}
    (hw : parseUrlField p.videoUrl = .error e) : ¬ OtherFieldsOK p := by
  rintro ⟨-, -, ⟨w, hw2⟩⟩
  rw [hw2] at hw
  cases hw

theorem not_rest_of_voice_err {p : Payload} {e : List String}
    (hv : parseVoice p.voice = .error e) : ¬ RestFieldsOK p := by
  rintro ⟨⟨v, hv2⟩, -, -, -⟩
  rw [hv2] at hv
  cases hv

theorem not_rest_of_content_err {p : Payload} {e : List String}
    (hc : parseContent p.content = .error e) : ¬ RestFieldsOK p := by
  rintro ⟨-, ⟨c, hc2⟩, -, -⟩
  rw [hc2] at hc
  cases hc

theorem not_rest_of_url_err {p : Payload} {e : List String}
    (hu : parseUrlField p.url = .error e) : ¬ RestFieldsOK p := by
  rintro ⟨-, -, ⟨u, hu2⟩, -⟩
  rw [hu2] at hu
  cases hu

theorem not_rest_of_video_err {p : Payload} {e : List String}
    (hw : parseUrlField p.videoUrl = .error e) : ¬ RestFieldsOK p := by
  rintro ⟨-, -, -, ⟨w, hw2⟩⟩
  rw [hw2] at hw
  cases hw

theorem parseMode_err_ne_nil {v : Option JVal} {l : List String}
    (h : parseMode v = .error l) : l ≠ [] := by
  unfold parseMode at h
  repeat' split at h
  any_goals simp_all
  all_goals subst h
  all_goals simp

theorem parseVoice_err_ne_nil {v : Option JVal} {l : List String}
    (h : parseVoice v = .error l) : l ≠ [] := by
  unfold parseVoice at h
  repeat' split at h
  any_goals simp_all
  all_goals subst h
  all_goals simp

theorem parseContent_err_ne_nil {v : Option JVal} {l : List String}
    (h : parseContent v = .error l) : l ≠ [] := by
  unfold parseContent at h
  repeat' split at h
  any_goals simp_all
  all_goals subst h
  all_goals simp

theorem parseUrlField_err_ne_nil {v : Option JVal} {l : List String}
    (h : parseUrlField v = .error l) : l ≠ [] := by
  unfold parseUrlField at h
  repeat' split at h
  any_goals simp_all
  all_goals subst h
  all_goals simp

/-- A failing parse of an object yields exactly the schema's issue list,
and that list is nonempty. -/
theorem safeParse_object_error_facts {p : Payload} {l : List String}
    (h : safeParse (.object p) = .error l) : l = schemaIssues p ∧ l ≠ [] := by
  unfold safeParse at h
  dsimp only at h
  unfold schemaIssues
  cases hm : parseMode p.mode <;> rw [hm] at h <;>
  cases hv : parseVoice p.voice <;>
  cases hc : parseContent p.content <;>
  cases hu : parseUrlField p.url <;>
  cases hw : parseUrlField p.videoUrl
  all_goals try have n1 := parseMode_err_ne_nil hm
  all_goals try have n2 := parseVoice_err_ne_nil hv
  all_goals try have n3 := parseContent_err_ne_nil hc
  all_goals try have n4 := parseUrlField_err_ne_nil hu
  all_goals try have n5 := parseUrlField_err_ne_nil hw
  all_goals simp_all [schemaIssues, issuesOf]
  all_goals subst h
  all_goals simp_all [List.append_eq_nil]

/-- C1: every inbound payload resolves to exactly one settled response —
HTTP 200 with a `script`/`audioBase64` success body, or an `{ error }`
body whose status is one of 400, 422, 502, 500. No input leaves the
`POST` handler unresolved or outside this status set. -/
theorem claim1_response_resolved (body : Except Thrown Body) (o : Oracles) :
    Resolved (POST body o).1 := by
  unfold POST
  repeat'
    first
      | split
      | dsimp only
  all_goals
    first
      | exact resolved_catch _
      | exact resolved_checkSource _ _ _ _ _ _
      | exact Or.inr ⟨by simp, _, rfl⟩

/-- C2 as stated fails: with the spec's throwing extractor contract, a
video lacking public captions makes the transcript extractor throw
`TranscriptUnavailableError`; the route has no per-stage catch, so the
fault — though the extractor was invoked, as the trace records — lands
in the top-level catch and is returned with status 400, not the
claimed 422. -/
theorem claim2_counterexample :
    (POST (.ok (.object videoPayload)) transcriptThrowOracles).2.extractVideoCalled
      = true ∧
    (POST (.ok (.object videoPayload)) transcriptThrowOracles).1 =
      ⟨400, .failure "No transcript is available for this video"⟩ ∧
    (POST (.ok (.object videoPayload)) transcriptThrowOracles).1.status ≠ 422 := by
  refine ⟨rfl, rfl, by decide⟩

/-- C2 (amended): for a well-formed `url`- or `video`-mode request, the
handler returns 422 with the source-could-not-be-derived message
exactly when the extraction call completes but yields no usable text
(null or empty); an extraction failure that throws — the spec's
`FetchError` / `TranscriptUnavailableError` — instead falls to the
top-level catch and is surfaced with the fault's own message at status
400, or 500 when the message carries a config/network marker, but
never 422. -/
theorem claim2_extraction_failure_status (b : Body) (o : Oracles) (d : ParsedData)
    (u : String) (e : Except Thrown (Option String))
    (hp : safeParse b = .ok d)
    (hm : (d.mode = .url ∧ d.url = some u ∧ o.extractFromUrl u = e) ∨
          (d.mode = .video ∧ d.videoUrl = some u ∧ o.extractFromYouTube u = e)) :
    (ExtractReturnedNoText e →
      (POST (.ok b) o).1 = ⟨422, .failure sourceFailMsg⟩) ∧
    (∀ t, e = .error t →
      (POST (.ok b) o).1 = catchResponse t ∧ (catchResponse t).status ≠ 422) := by
  rcases hm with ⟨hmm, hu, he⟩ | ⟨hmm, hu, he⟩
  · constructor
    · intro hf
      unfold POST
      dsimp only
      rw [hp]
      dsimp only
      rw [hmm, hu]
      dsimp only
      rcases hf with hf | hf <;> rw [hf] at he <;> rw [he] <;> rfl
    · intro t ht
      refine ⟨?_, catchStatus_ne_422 t.message⟩
      unfold POST
      dsimp only
      rw [hp]
      dsimp only
      rw [hmm, hu]
      dsimp only
      rw [ht] at he
      rw [he]
  · constructor
    · intro hf
      unfold POST
      dsimp only
      rw [hp]
      dsimp only
      rw [hmm, hu]
      dsimp only
      rcases hf with hf | hf <;> rw [hf] at he <;> rw [he] <;> rfl
    · intro t ht
      refine ⟨?_, catchStatus_ne_422 t.message⟩
      unfold POST
      dsimp only
      rw [hp]
      dsimp only
      rw [hmm, hu]
      dsimp only
      rw [ht] at he
      rw [he]

/-- C5: a payload that fails schema validation gets HTTP 400 carrying
exactly the first violated constraint's message — the head of zod's
issue list, not an aggregate — and no external call is made. -/
theorem claim5_first_issue_only (b : Body) (o : Oracles) (issues : List String)
    (h : safeParse b = .error issues) :
    ∃ m rest, issues = m :: rest ∧
      POST (.ok b) o = (⟨400, .failure m⟩, Trace.start) := by
  have hne : issues ≠ [] := by
    cases b with
    | nonObject t =>
      unfold safeParse at h
      simp only [Except.error.injEq] at h
      simp [← h]
    | object p => exact (safeParse_object_error_facts h).2
  obtain ⟨m, rest, rfl⟩ := List.exists_cons_of_ne_nil hne
  exact ⟨m, rest, rfl, by rw [post_schema_error o h]; rfl⟩

/-- Witness for C2's amended theorem at a concrete url-mode request
whose extraction returns null: the completed-but-empty branch gives
the 422 response. -/
theorem claim2_witness :
    (ExtractReturnedNoText (nullExtractOracles.extractFromUrl "https://example.com/a") →
      (POST (.ok (.object urlPayload)) nullExtractOracles).1 =
        ⟨422, .failure sourceFailMsg⟩) ∧
    (∀ t, nullExtractOracles.extractFromUrl "https://example.com/a" = .error t →
      (POST (.ok (.object urlPayload)) nullExtractOracles).1 = catchResponse t ∧
        (catchResponse t).status ≠ 422) :=
  claim2_extraction_failure_status (.object urlPayload) nullExtractOracles
    ⟨.url, "alloy", none, some "https://example.com/a", none⟩
    "https://example.com/a" (.ok none) (by rfl)
    (Or.inl ⟨rfl, rfl, rfl⟩)

/-- Witness for C5: a payload with every key absent fails on the
missing `mode` and gets 400 with exactly that first message. -/
theorem claim5_witness :
    ∃ m rest, [msgRequired] = m :: rest ∧
      POST (.ok (.object emptyPayload)) successOracles =
        (⟨400, .failure m⟩, Trace.start) :=
  claim5_first_issue_only (.object emptyPayload) successOracles
    [msgRequired] (by rfl)

/-- C3 as stated fails: with an additionally invalid `voice`, a short
text request still gets 400, but the message is the first schema
issue (the voice minimum), which does not reference the 50-character
minimum. -/
theorem claim3_counterexample :
    (POST (.ok (.object badVoiceShortTextPayload)) successOracles).1 =
      ⟨400, .failure msgVoiceMin⟩ ∧
    strContains msgVoiceMin "50 characters" = false := by
  constructor
  · rfl
  · decide

/-- C3 (amended): a mode-"text" request whose content trims below 50
characters always gets HTTP 400 with no external call; the message
references the 50-character minimum whenever the other fields pass
their schema checks (otherwise it carries the first schema
violation's message). -/
theorem claim3_amended (p : Payload) (o : Oracles)
    (hm : p.mode = some (.jstr "text")) (hs : ShortTextContent p) :
    ∃ m, POST (.ok (.object p)) o = (⟨400, .failure m⟩, Trace.start) ∧
      (OtherFieldsOK p → strContains m "50 characters" = true) := by
  have hmode : parseMode p.mode = .ok .text := by rw [hm]; rfl
  rcases hv : parseVoice p.voice with ev | v
  · exact ⟨_, post_schema_error o (safeParse_err_of_voice hv),
      fun hok => absurd hok (not_other_of_voice_err hv)⟩
  rcases hu : parseUrlField p.url with eu | u
  · exact ⟨_, post_schema_error o (safeParse_err_of_url hu),
      fun hok => absurd hok (not_other_of_url_err hu)⟩
  rcases hw : parseUrlField p.videoUrl with ew | w
  · exact ⟨_, post_schema_error o (safeParse_err_of_video hw),
      fun hok => absurd hok (not_other_of_video_err hw)⟩
  rcases hs with hc | ⟨s, hc, hlen⟩
  · have hcont : parseContent p.content = .ok none := by rw [hc]; rfl
    have hsp := safeParse_ok_of hmode hv hcont hu hw
    refine ⟨"Please provide at least 50 characters of text.", ?_, fun _ => by decide⟩
    unfold POST
    dsimp only
    rw [hsp]
    rfl
  · by_cases hl : s.length < 50
    · have hcont : parseContent p.content = .error [msgContentMin] := by
        rw [hc]; unfold parseContent; simp [hl]
      have hiss : schemaIssues p = [msgContentMin] := by
        unfold schemaIssues
        rw [hmode, hv, hcont, hu, hw]
        rfl
      refine ⟨msgContentMin, ?_, fun _ => by decide⟩
      have hpost := post_schema_error o (safeParse_err_of_content hcont)
      rw [hiss] at hpost
      exact hpost
    · have hcont : parseContent p.content = .ok (some s) := by
        rw [hc]; unfold parseContent; simp [hl]
      have hsp := safeParse_ok_of hmode hv hcont hu hw
      refine ⟨"Please provide at least 50 characters of text.", ?_, fun _ => by decide⟩
      unfold POST
      dsimp only
      rw [hsp]
      dsimp only [Option.getD]
      rw [if_pos hlen]

/-- Witness for C3's amended theorem at a concrete short text request. -/
theorem claim3_witness :
    ∃ m, POST (.ok (.object shortTextPayload)) successOracles =
        (⟨400, .failure m⟩, Trace.start) ∧
      (OtherFieldsOK shortTextPayload → strContains m "50 characters" = true) :=
  claim3_amended shortTextPayload successOracles rfl
    (Or.inr ⟨"way too short", rfl, by decide⟩)

/-- C4 as stated fails: a url-mode request missing its `url` but also
carrying an invalid `voice` gets 400 with the voice issue, a message
that does not name the missing field (the extractor is still never
invoked). -/
theorem claim4_counterexample :
    POST (.ok (.object badVoiceMissingUrlPayload)) successOracles =
      (⟨400, .failure msgVoiceMin⟩, Trace.start) ∧
    msgVoiceMin ≠ "Missing URL for webpage mode." := by
  constructor
  · rfl
  · decide

/-- C4 (amended): a mode-"url" request with `url` absent (resp. mode
"video" with `videoUrl` absent) always gets HTTP 400 with no extractor
or any other external call (the trace stays at `Trace.start`); the
message names the missing field whenever the remaining fields pass
their schema checks. -/
theorem claim4_amended (p : Payload) (o : Oracles)
    (h : (p.mode = some (.jstr "url") ∧ p.url = none) ∨
         (p.mode = some (.jstr "video") ∧ p.videoUrl = none)) :
    ∃ m, POST (.ok (.object p)) o = (⟨400, .failure m⟩, Trace.start) ∧
      (RestFieldsOK p →
        (p.mode = some (.jstr "url") → m = "Missing URL for webpage mode.") ∧
        (p.mode = some (.jstr "video") → m = "Missing video URL for YouTube mode.")) := by
  rcases h with ⟨hm, hn⟩ | ⟨hm, hn⟩
  · have hmode : parseMode p.mode = .ok .url := by rw [hm]; rfl
    rcases hv : parseVoice p.voice with ev | v
    · exact ⟨_, post_schema_error o (safeParse_err_of_voice hv),
        fun hok => absurd hok (not_rest_of_voice_err hv)⟩
    rcases hc : parseContent p.content with ec | c
    · exact ⟨_, post_schema_error o (safeParse_err_of_content hc),
        fun hok => absurd hok (not_rest_of_content_err hc)⟩
    rcases hw : parseUrlField p.videoUrl with ew | w
    · exact ⟨_, post_schema_error o (safeParse_err_of_video hw),
        fun hok => absurd hok (not_rest_of_video_err hw)⟩
    have hu : parseUrlField p.url = .ok none := by rw [hn]; rfl
    have hsp := safeParse_ok_of hmode hv hc hu hw
    refine ⟨"Missing URL for webpage mode.", ?_,
      fun _ => ⟨fun _ => rfl, fun hv2 => ?_⟩⟩
    · unfold POST
      dsimp only
      rw [hsp]
    · rw [hm] at hv2
      exact absurd hv2 (by decide)
  · have hmode : parseMode p.mode = .ok .video := by rw [hm]; rfl
    rcases hv : parseVoice p.voice with ev | v
    · exact ⟨_, post_schema_error o (safeParse_err_of_voice hv),
        fun hok => absurd hok (not_rest_of_voice_err hv)⟩
    rcases hc : parseContent p.content with ec | c
    · exact ⟨_, post_schema_error o (safeParse_err_of_content hc),
        fun hok => absurd hok (not_rest_of_content_err hc)⟩
    rcases hu : parseUrlField p.url with eu | u
    · exact ⟨_, post_schema_error o (safeParse_err_of_url hu),
        fun hok => absurd hok (not_rest_of_url_err hu)⟩
    have hw : parseUrlField p.videoUrl = .ok none := by rw [hn]; rfl
    have hsp := safeParse_ok_of hmode hv hc hu hw
    refine ⟨"Missing video URL for YouTube mode.", ?_,
      fun _ => ⟨fun hv2 => ?_, fun _ => rfl⟩⟩
    · unfold POST
      dsimp only
      rw [hsp]
    · rw [hm] at hv2
      exact absurd hv2 (by decide)

/-- Witness for C4's amended theorem at a concrete url-mode request
with no url. -/
theorem claim4_witness :
    ∃ m, POST (.ok (.object missingUrlPayload)) successOracles =
        (⟨400, .failure m⟩, Trace.start) ∧
      (RestFieldsOK missingUrlPayload →
        (missingUrlPayload.mode = some (.jstr "url") →
          m = "Missing URL for webpage mode.") ∧
        (missingUrlPayload.mode = some (.jstr "video") →
          m = "Missing video URL for YouTube mode.")) :=
  claim4_amended missingUrlPayload successOracles (Or.inl ⟨rfl, rfl⟩)

/-- A schema-valid text-mode request with long-enough content runs the
pipeline from the client-construction step on: `POST` agrees with
`afterSource` there. -/
theorem post_text_reaches_afterSource {b : Body} {d : ParsedData} (o : Oracles)
    (hp : safeParse b = .ok d) (hm : d.mode = .text)
    (hlen : ¬ (jsTrim (d.content.getD "")).length < 50) :
    POST (.ok b) o =
      afterSource o .text none d.voice (jsTrim (d.content.getD "")) Trace.start := by
  have hne0 : ¬ (jsTrim (d.content.getD "")).length = 0 := by omega
  unfold POST
  dsimp only
  rw [hp]
  dsimp only
  rw [hm]
  dsimp only
  rw [if_neg hlen]
  unfold checkSource
  dsimp only
  rw [if_neg hne0]

/-- C6 as stated fails: a thrown speech-synthesis failure is handled by
the top-level catch and classified 400, not 502, even though synthesis
was invoked (as the trace records). -/
theorem claim6_counterexample :
    (POST (.ok (.object textPayload)) synthesisThrowOracles).2.synthesizeCalled = true ∧
    (POST (.ok (.object textPayload)) synthesisThrowOracles).1 =
      ⟨400, .failure "synthesis backend unavailable"⟩ := by
  constructor
  · rfl
  · rfl

/-- C6 (amended): the 502 GenerationFailedError is produced exactly when
the script-generation call returns no text or text trimming to empty;
generation or synthesis calls that throw instead fall to the top-level
classifier, yielding 400 or 500 — never 502. Stated here for text-mode
requests that reach the generation stage. -/
theorem claim6_amended (b : Body) (o : Oracles) (d : ParsedData)
    (hp : safeParse b = .ok d) (hm : d.mode = .text)
    (hlen : ¬ (jsTrim (d.content.getD "")).length < 50)
    (hcl : o.getOpenAIClient = .ok ()) :
    (∀ out, o.createScript (jsTrim (d.content.getD "")) .text none = .ok out →
        (out = none ∨ ∃ raw, out = some raw ∧ (jsTrim raw).length = 0) →
        (POST (.ok b) o).1 = ⟨502, .failure genFailMsg⟩) ∧
    (∀ t, o.createScript (jsTrim (d.content.getD "")) .text none = .error t →
        (POST (.ok b) o).1 = catchResponse t ∧ (catchResponse t).status ≠ 502) ∧
    (∀ raw t, o.createScript (jsTrim (d.content.getD "")) .text none = .ok (some raw) →
        ¬ (jsTrim raw).length = 0 →
        o.createSpeech d.voice (jsTrim raw) = .error t →
        (POST (.ok b) o).1 = catchResponse t ∧ (catchResponse t).status ≠ 502) := by
  have key := post_text_reaches_afterSource o hp hm hlen
  refine ⟨?_, ?_, ?_⟩
  · rintro out hout (rfl | ⟨raw, rfl, hraw⟩)
    · rw [key]
      unfold afterSource
      rw [hcl]
      dsimp only
      rw [hout]
    · rw [key]
      unfold afterSource
      rw [hcl]
      dsimp only
      rw [hout]
      dsimp only
      rw [if_pos hraw]
  · intro t hout
    refine ⟨?_, catchStatus_ne_502 t.message⟩
    rw [key]
    unfold afterSource
    rw [hcl]
    dsimp only
    rw [hout]
  · intro raw t hout hraw hsyn
    refine ⟨?_, catchStatus_ne_502 t.message⟩
    rw [key]
    unfold afterSource
    rw [hcl]
    dsimp only
    rw [hout]
    dsimp only
    rw [if_neg hraw]
    rw [hsyn]

/-- Witness for C6's amended theorem: whitespace-only generation output
on a concrete request yields the 502 response. -/
theorem claim6_witness :
    (POST (.ok (.object textPayload)) emptyScriptOracles).1 =
      ⟨502, .failure genFailMsg⟩ :=
  (claim6_amended (.object textPayload) emptyScriptOracles
      ⟨.text, "alloy", some sampleContent, none, none⟩ (by rfl) rfl (by decide) rfl).1
    (some "   ") rfl (Or.inr ⟨"   ", rfl, by decide⟩)

/-- C7: a fault thrown under the handler's try block (here at client
construction, with the pipeline otherwise reached) is answered by the
catch block: the response carries the fault's message, with status 500
exactly when the message marks a configuration fault (`OPENAI_API_KEY`)
or an unreachable-network fault (`Failed to fetch`), and 400 for every
other fault. -/
theorem claim7_catch_classification (b : Body) (o : Oracles) (d : ParsedData)
    (t : Thrown)
    (hp : safeParse b = .ok d) (hm : d.mode = .text)
    (hlen : ¬ (jsTrim (d.content.getD "")).length < 50)
    (hcl : o.getOpenAIClient = .error t) :
    (POST (.ok b) o).1 = catchResponse t ∧
    ((strContains t.message "OPENAI_API_KEY" = true ∨
        strContains t.message "Failed to fetch" = true) →
      (catchResponse t).status = 500) ∧
    (strContains t.message "OPENAI_API_KEY" = false →
      strContains t.message "Failed to fetch" = false →
      (catchResponse t).status = 400) := by
  have key := post_text_reaches_afterSource o hp hm hlen
  refine ⟨?_, ?_, ?_⟩
  · rw [key]
    unfold afterSource
    rw [hcl]
  · rintro (h | h) <;> simp [catchResponse, catchStatus, h]
  · intro h1 h2
    simp [catchResponse, catchStatus, h1, h2]

/-- Witness for C7 at a concrete request whose client construction
throws the missing-credential error. -/
theorem claim7_witness :
    (POST (.ok (.object textPayload)) missingKeyOracles).1 =
      catchResponse (.err "Missing OPENAI_API_KEY environment variable") ∧
    ((strContains (Thrown.message (.err "Missing OPENAI_API_KEY environment variable"))
          "OPENAI_API_KEY" = true ∨
        strContains (Thrown.message (.err "Missing OPENAI_API_KEY environment variable"))
          "Failed to fetch" = true) →
      (catchResponse (.err "Missing OPENAI_API_KEY environment variable")).status = 500) ∧
    (strContains (Thrown.message (.err "Missing OPENAI_API_KEY environment variable"))
        "OPENAI_API_KEY" = false →
      strContains (Thrown.message (.err "Missing OPENAI_API_KEY environment variable"))
        "Failed to fetch" = false →
      (catchResponse (.err "Missing OPENAI_API_KEY environment variable")).status = 400) :=
  claim7_catch_classification (.object textPayload) missingKeyOracles
    ⟨.text, "alloy", some sampleContent, none, none⟩
    (.err "Missing OPENAI_API_KEY environment variable")
    (by rfl) rfl (by decide) rfl

/-- C8 as stated fails: "ALLOY" violates the spec's lowercase pattern
`^[a-z-]+$` and lies inside the 2-32 length bounds, yet the schema
accepts it (the code's regex carries the `i` flag) and the pipeline
runs to a 200 instead of rejecting with 400. -/
theorem claim8_counterexample :
    voicePatternSpec "ALLOY" = false ∧
    (2 ≤ "ALLOY".length ∧ "ALLOY".length ≤ 32) ∧
    (POST (.ok (.object upperVoicePayload)) successOracles).1.status = 200 := by
  refine ⟨by decide, ⟨by decide, by decide⟩, rfl⟩

/-- C8 (amended): `voice` defaults to "alloy" when omitted; when present
it must match `^[a-z-]+$` case-insensitively (ASCII letters of either
case, or hyphens) with length 2-32; a value failing the
case-insensitive pattern or the length bounds is rejected with HTTP 400
before any pipeline stage runs. -/
theorem claim8_amended :
    (∀ p d, p.voice = none → safeParse (.object p) = .ok d → d.voice = "alloy") ∧
    (∀ p o s, p.voice = some (.jstr s) →
      (s.length < 2 ∨ 32 < s.length ∨ voiceRegex s = false) →
      ∃ m, POST (.ok (.object p)) o = (⟨400, .failure m⟩, Trace.start)) := by
  constructor
  · intro p d h1 h2
    have hv : parseVoice p.voice = .ok "alloy" := by rw [h1]; rfl
    unfold safeParse at h2
    dsimp only at h2
    rw [hv] at h2
    cases hm : parseMode p.mode <;> rw [hm] at h2 <;>
      cases hc : parseContent p.content <;> rw [hc] at h2 <;>
      cases hu : parseUrlField p.url <;> rw [hu] at h2 <;>
      cases hw : parseUrlField p.videoUrl <;> rw [hw] at h2 <;>
      simp_all
    all_goals rw [← h2]
  · intro p o s h1 h2
    have hne : ((if s.length < 2 then [msgVoiceMin] else []) ++
        (if 32 < s.length then [msgVoiceMax] else []) ++
        (if voiceRegex s then [] else [msgVoiceRegex])) ≠ [] := by
      rcases h2 with h | h | h
      · simp [h]
      · have h0 : ¬ s.length < 2 := by omega
        simp [h, h0]
      · simp [h]
    obtain ⟨a, l2, hl⟩ := List.exists_cons_of_ne_nil hne
    have hv : parseVoice p.voice = .error (a :: l2) := by
      rw [h1]
      unfold parseVoice
      dsimp only
      rw [hl]
      rfl
    exact ⟨_, post_schema_error o (safeParse_err_of_voice hv)⟩

/-- Witness for C8's amended theorem: the default applies on a concrete
voiceless payload, and a one-character voice is rejected with 400. -/
theorem claim8_witness :
    ParsedData.voice ⟨.text, "alloy", some sampleContent, none, none⟩ = "alloy" ∧
    ∃ m, POST (.ok (.object ⟨some (.jstr "text"), some (.jstr "x"), none, none, none⟩))
        successOracles = (⟨400, .failure m⟩, Trace.start) :=
  ⟨claim8_amended.1 textPayload ⟨.text, "alloy", some sampleContent, none, none⟩
      rfl (by rfl),
   claim8_amended.2 ⟨some (.jstr "text"), some (.jstr "x"), none, none, none⟩
      successOracles "x" rfl (Or.inl (by decide))⟩

/-- C9 as stated fails: an internal fault's raw message (here carrying
filesystem path detail) is returned verbatim in the response body, not
a generic InternalError message. -/
theorem claim9_counterexample :
    (POST (.ok (.object textPayload)) internalFaultOracles).1.body =
      .failure "ENOENT: no such file or directory, open /app/secrets.json" ∧
    "ENOENT: no such file or directory, open /app/secrets.json" ≠
      "Unexpected server error." := by
  constructor
  · rfl
  · decide

/-- C9 (amended): the top-level error path surfaces the caught
exception's own message verbatim — the body is exactly the message
string (never a stack trace, which the catch block does not read) —
and the generic "Unexpected server error." text is used only when the
thrown value is not an `Error`. -/
theorem claim9_amended (m : String) (o : Oracles) :
    (POST (.error (.err m)) o).1 = ⟨catchStatus m, .failure m⟩ ∧
    (POST (.error .nonError) o).1 = ⟨400, .failure "Unexpected server error."⟩ :=
  ⟨rfl, rfl⟩

/-- C10 as stated fails: with a non-string `voice`, a content-less
text-mode payload does not pass schema validation; the 400 carries the
voice type error, not the 50-character-minimum message. -/
theorem claim10_counterexample :
    safeParse (.object numericVoicePayload) = .error [msgExpectedString "number"] ∧
    (POST (.ok (.object numericVoicePayload)) successOracles).1 =
      ⟨400, .failure (msgExpectedString "number")⟩ ∧
    msgExpectedString "number" ≠ "Please provide at least 50 characters of text." := by
  refine ⟨by rfl, by rfl, by decide⟩

/-- C10 (amended): a mode-"text" payload with `content` absent whose
other fields pass their checks does pass schema validation (content,
url and videoUrl are optional in the schema), is treated as empty
content, and gets 400 with the 50-character-minimum message rather
than a distinct missing-field error — with no external call. -/
theorem claim10_amended (p : Payload) (o : Oracles)
    (hm : p.mode = some (.jstr "text")) (hc : p.content = none)
    (hok : OtherFieldsOK p) :
    (∃ d, safeParse (.object p) = .ok d ∧ d.content = none) ∧
    POST (.ok (.object p)) o =
      (⟨400, .failure "Please provide at least 50 characters of text."⟩, Trace.start) := by
  obtain ⟨⟨v, hv⟩, ⟨u, hu⟩, ⟨w, hw⟩⟩ := hok
  have hmode : parseMode p.mode = .ok .text := by rw [hm]; rfl
  have hcont : parseContent p.content = .ok none := by rw [hc]; rfl
  have hsp := safeParse_ok_of hmode hv hcont hu hw
  refine ⟨⟨_, hsp, rfl⟩, ?_⟩
  unfold POST
  dsimp only
  rw [hsp]
  rfl

/-- Witness for C10's amended theorem at a concrete content-less
text-mode payload with a valid voice. -/
theorem claim10_witness :
    (∃ d, safeParse (.object contentAbsentPayload) = .ok d ∧ d.content = none) ∧
    POST (.ok (.object contentAbsentPayload)) successOracles =
      (⟨400, .failure "Please provide at least 50 characters of text."⟩, Trace.start) :=
  claim10_amended contentAbsentPayload successOracles rfl rfl
    ⟨⟨"verse", by rfl⟩, ⟨none, rfl⟩, ⟨none, rfl⟩⟩

end SonicScribe
